import Mathlib

/-!
Verification of the active-ragdoll core of the arena-combat repository.

The Rust sources under src/physics (muscle.rs, ragdoll.rs, skeleton.rs,
mod.rs) are shallowly embedded below.  Machine floats (f32) are modelled
by real numbers; the vector and quaternion helpers used by the code come
from the glam crate and are embedded following the published glam
implementations (componentwise arithmetic, atan2-based axis-angle
decomposition, slerp with a dot-product sign flip and a 0.9995
linear-interpolation threshold).  The rapier engine is external to the
repository: a rigid body is summarised by its pose, velocities and the
additive force / torque / impulse accumulators that the repository
wrapper functions touch.
-/

/- ════════════════ glam math layer: Vec3 ════════════════ -/

/-- Three-component vector, modelling glam Vec3 with real components. -/
@[ext]
structure Vec3 where
  x : ℝ
  y : ℝ
  z : ℝ

namespace Vec3

def add (a b : Vec3) : Vec3 := ⟨a.x + b.x, a.y + b.y, a.z + b.z⟩

def sub (a b : Vec3) : Vec3 := ⟨a.x - b.x, a.y - b.y, a.z - b.z⟩

def neg (a : Vec3) : Vec3 := ⟨-a.x, -a.y, -a.z⟩

/-- Multiplication of a vector by a scalar (glam Vec3 * f32). -/
def smul (c : ℝ) (a : Vec3) : Vec3 := ⟨c * a.x, c * a.y, c * a.z⟩

instance : Add Vec3 := ⟨add⟩

instance : Sub Vec3 := ⟨sub⟩

instance : Neg Vec3 := ⟨neg⟩

instance : SMul ℝ Vec3 := ⟨smul⟩

instance : Zero Vec3 := ⟨⟨0, 0, 0⟩⟩

def dot (a b : Vec3) : ℝ := a.x * b.x + a.y * b.y + a.z * b.z

/-- Cross product, as in glam Vec3 cross. -/
def cross (a b : Vec3) : Vec3 :=
  ⟨a.y * b.z - a.z * b.y, a.z * b.x - a.x * b.z, a.x * b.y - a.y * b.x⟩

/-- Euclidean length, glam Vec3 length. -/
noncomputable def length (a : Vec3) : ℝ := Real.sqrt (a.dot a)

/-- glam Vec3 normalize: the vector times the reciprocal of its length. -/
noncomputable def normalize (a : Vec3) : Vec3 := (a.length)⁻¹ • a

end Vec3

/- ════════════════ glam math layer: Quat ════════════════ -/

/-- Quaternion with real components, modelling glam Quat (x, y, z, w). -/
@[ext]
structure Quat where
  x : ℝ
  y : ℝ
  z : ℝ
  w : ℝ

namespace Quat

def identity : Quat := ⟨0, 0, 0, 1⟩

/-- Hamilton product, following the scalar glam Quat multiplication. -/
def mul (a b : Quat) : Quat :=
  ⟨a.w * b.x + a.x * b.w + a.y * b.z - a.z * b.y,
   a.w * b.y - a.x * b.z + a.y * b.w + a.z * b.x,
   a.w * b.z + a.x * b.y - a.y * b.x + a.z * b.w,
   a.w * b.w - a.x * b.x - a.y * b.y - a.z * b.z⟩

instance : Mul Quat := ⟨mul⟩

def add (a b : Quat) : Quat := ⟨a.x + b.x, a.y + b.y, a.z + b.z, a.w + b.w⟩

def sub (a b : Quat) : Quat := ⟨a.x - b.x, a.y - b.y, a.z - b.z, a.w - b.w⟩

def neg (a : Quat) : Quat := ⟨-a.x, -a.y, -a.z, -a.w⟩

def smul (a : Quat) (c : ℝ) : Quat := ⟨a.x * c, a.y * c, a.z * c, a.w * c⟩

instance : Add Quat := ⟨add⟩

instance : Sub Quat := ⟨sub⟩

instance : Neg Quat := ⟨neg⟩

/-- glam Quat conjugate. -/
def conjugate (a : Quat) : Quat := ⟨-a.x, -a.y, -a.z, a.w⟩

/-- glam Quat inverse: for the unit quaternions used by the code this is
the conjugate, exactly as glam implements it. -/
def inverse (a : Quat) : Quat := a.conjugate

def dot (a b : Quat) : ℝ := a.x * b.x + a.y * b.y + a.z * b.z + a.w * b.w

noncomputable def length (a : Quat) : ℝ := Real.sqrt (a.dot a)

/-- glam Quat normalize: the quaternion times the reciprocal of its length. -/
noncomputable def normalize (a : Quat) : Quat := a.smul (a.length)⁻¹

/-- Quaternion for a rotation about the X axis by an angle, as in glam. -/
noncomputable def from_rotation_x (angle : ℝ) : Quat :=
  ⟨Real.sin (angle * 0.5), 0, 0, Real.cos (angle * 0.5)⟩

/-- Quaternion for a rotation about the Y axis by an angle, as in glam. -/
noncomputable def from_rotation_y (angle : ℝ) : Quat :=
  ⟨0, Real.sin (angle * 0.5), 0, Real.cos (angle * 0.5)⟩

/-- Quaternion for a rotation about the Z axis by an angle, as in glam. -/
noncomputable def from_rotation_z (angle : ℝ) : Quat :=
  ⟨0, 0, Real.sin (angle * 0.5), Real.cos (angle * 0.5)⟩

/-- Rotation of a vector by a quaternion (the sandwich product q v conj q,
written out componentwise; this is what nalgebra and glam compute). -/
def rotate_vec (q : Quat) (v : Vec3) : Vec3 :=
  let qv : Vec3 := ⟨q.x, q.y, q.z⟩
  let t : Vec3 := (2 : ℝ) • qv.cross v
  v + (q.w • t) + qv.cross t

end Quat

/-- Two-argument arctangent with the standard quadrant conventions of
f32 atan2 (ignoring signed zero, which real numbers do not have). -/
noncomputable def atan2 (y x : ℝ) : ℝ :=
  if 0 < x then Real.arctan (y / x)
  else if x < 0 then
    (if 0 ≤ y then Real.arctan (y / x) + Real.pi else Real.arctan (y / x) - Real.pi)
  else
    (if 0 < y then Real.pi / 2 else if y < 0 then -(Real.pi / 2) else 0)

/-- glam Quat to_axis_angle: if the vector part is at least 1.0e-8 long,
the axis is the normalized vector part and the angle is twice the
arctangent of the vector-part length over w; otherwise the X axis with
angle zero. -/
noncomputable def Quat.to_axis_angle (q : Quat) : Vec3 × ℝ :=
  let v : Vec3 := ⟨q.x, q.y, q.z⟩
  let len := v.length
  if len ≥ 1.0e-8 then ((len)⁻¹ • v, 2 * atan2 len q.w)
  else (⟨1, 0, 0⟩, 0)

/- ════════════════ skeleton.rs: BoneId ════════════════ -/

/-- Bone identifiers of the 11-bone humanoid, from skeleton.rs. -/
inductive BoneId where
  | Pelvis
  | Spine
  | Head
  | LeftUpperArm
  | LeftLowerArm
  | RightUpperArm
  | RightLowerArm
  | LeftUpperLeg
  | LeftLowerLeg
  | RightUpperLeg
  | RightLowerLeg
deriving DecidableEq, Repr, Fintype

/-- Parent bone of each bone (None for the root), from BoneId parent. -/
def BoneId.parent : BoneId → Option BoneId
  | .Pelvis => none
  | .Spine => some .Pelvis
  | .Head => some .Spine
  | .LeftUpperArm => some .Spine
  | .LeftLowerArm => some .LeftUpperArm
  | .RightUpperArm => some .Spine
  | .RightLowerArm => some .RightUpperArm
  | .LeftUpperLeg => some .Pelvis
  | .LeftLowerLeg => some .LeftUpperLeg
  | .RightUpperLeg => some .Pelvis
  | .RightLowerLeg => some .RightUpperLeg

/-- Creation-order list of all bones (parents before children), from
BoneId all_bones. -/
def BoneId.all_bones : List BoneId :=
  [.Pelvis, .Spine, .Head,
   .LeftUpperArm, .LeftLowerArm, .RightUpperArm, .RightLowerArm,
   .LeftUpperLeg, .LeftLowerLeg, .RightUpperLeg, .RightLowerLeg]

/-- One ancestor step on an optional bone: follow the parent link. -/
def parentStep (o : Option BoneId) : Option BoneId := o.bind BoneId.parent

/-- The bone reached after n parent steps (none once past the root). -/
def iterParent (n : ℕ) (b : BoneId) : Option BoneId :=
  parentStep^[n] (some b)

/-- Number of parent steps from a bone to the root, computed with enough
fuel for the 11-bone skeleton. -/
def depthAux : ℕ → BoneId → ℕ
  | 0, _ => 0
  | n + 1, b =>
    match b.parent with
    | none => 0
    | some p => depthAux n p + 1

/-- Depth of a bone in the parent graph. -/
def BoneId.depth (b : BoneId) : ℕ := depthAux 11 b

/- ════════════════ muscle.rs: Muscle ════════════════ -/

/-- Smooth step function from muscle.rs: clamp then t * t * (3 - 2 t). -/
noncomputable def smooth_step (t : ℝ) : ℝ :=
  let t' := min (max t 0) 1
  t' * t' * (3 - 2 * t')

/-- PD controller for one joint, from muscle.rs. -/
structure Muscle where
  bone_id : BoneId
  kp : ℝ
  kd : ℝ
  max_torque : ℝ
  target_rotation : Quat
  strength : ℝ

/-- Muscle constructor: identity target, full strength. -/
def Muscle.new (bone_id : BoneId) (kp kd max_torque : ℝ) : Muscle :=
  ⟨bone_id, kp, kd, max_torque, Quat.identity, 1⟩

/-- Shortest-path normalization of the axis-angle angle used in
calculate_torque (muscle.rs lines 98-104). -/
noncomputable def normalize_angle (angle : ℝ) : ℝ :=
  if angle > Real.pi then angle - 2 * Real.pi
  else if angle < -Real.pi then angle + 2 * Real.pi
  else angle

/-- PD torque computation, from Muscle calculate_torque: zero result below
the strength cutoff, otherwise the strength-scaled PD sum clamped to
max_torque magnitude as a final step. -/
noncomputable def Muscle.calculate_torque (m : Muscle) (current_rotation : Quat)
    (angular_velocity : Vec3) : Vec3 :=
  if m.strength < 0.01 then 0
  else
    let error_quat := m.target_rotation * current_rotation.inverse
    let aa := error_quat.to_axis_angle
    let angle := normalize_angle aa.2
    let p_term := (angle * m.kp) • aa.1
    let d_term := m.kd • (-angular_velocity)
    let torque := m.strength • (p_term + d_term)
    if torque.length > m.max_torque then m.max_torque • torque.normalize
    else torque

/-- Magnitude clamp of a vector, the clamp_magnitude operation named by the
specification text. -/
noncomputable def clamp_magnitude (v : Vec3) (max_len : ℝ) : Vec3 :=
  if v.length > max_len then max_len • v.normalize else v

/-- Modelled from the specification wording of C1: the strength factor
multiplies the already-clamped PD sum (clamp before strength). -/
noncomputable def calculate_torque_specC1 (m : Muscle) (current_rotation : Quat)
    (angular_velocity : Vec3) : Vec3 :=
  if m.strength < 0.01 then 0
  else
    let error_quat := m.target_rotation * current_rotation.inverse
    let aa := error_quat.to_axis_angle
    let angle := normalize_angle aa.2
    let p_term := (angle * m.kp) • aa.1
    let d_term := m.kd • (-angular_velocity)
    m.strength • clamp_magnitude (p_term + d_term) m.max_torque

/-- Amended form of C1: the strength factor is applied to the PD sum first
and the magnitude clamp to max_torque is the final step. -/
noncomputable def calculate_torque_amendedC1 (m : Muscle) (current_rotation : Quat)
    (angular_velocity : Vec3) : Vec3 :=
  if m.strength < 0.01 then 0
  else
    let error_quat := m.target_rotation * current_rotation.inverse
    let aa := error_quat.to_axis_angle
    let angle := normalize_angle aa.2
    let p_term := (angle * m.kp) • aa.1
    let d_term := m.kd • (-angular_velocity)
    clamp_magnitude (m.strength • (p_term + d_term)) m.max_torque

/- ════════════════ physics engine boundary (mod.rs wrapper) ════════════════ -/

/-- Stable opaque rigid-body handle: the model allocates them sequentially. -/
def Handle := ℕ

instance : DecidableEq Handle := inferInstanceAs (DecidableEq ℕ)

instance : OfNat Handle n := ⟨(n : ℕ)⟩

/-- Engine-owned rigid body, summarised by its pose, velocities and the
additive accumulators touched by the repository wrapper functions
(add_force, add_torque, apply_impulse all accumulate and wake the body). -/
structure RigidBody where
  translation : Vec3
  rotation : Quat
  linvel : Vec3
  angvel : Vec3
  force : Vec3
  torque : Vec3
  impulse : Vec3

/-- The PhysicsWorld wrapper from mod.rs: the rigid-body set is a partial
map from handles to bodies plus a fresh-handle counter; collider and
joint sets are summarised by allocation counters (their internal data
lives in the external engine). -/
structure PhysicsWorld where
  gravity : Vec3
  bodies : Handle → Option RigidBody
  next_body : ℕ
  collider_count : ℕ
  joint_count : ℕ

namespace PhysicsWorld

/-- Fresh world with standard gravity, from PhysicsWorld new. -/
def new : PhysicsWorld :=
  { gravity := ⟨0, -9.81, 0⟩
    bodies := fun _ => none
    next_body := 0
    collider_count := 0
    joint_count := 0 }

/-- Insert a rigid body and return its handle, from add_rigid_body. -/
def add_rigid_body (w : PhysicsWorld) (body : RigidBody) : Handle × PhysicsWorld :=
  ((w.next_body : Handle),
   { w with
      bodies := fun h => if h = (w.next_body : Handle) then some body else w.bodies h
      next_body := w.next_body + 1 })

/-- Attach a collider to a body, from add_collider (collider data is held
by the external engine; the model records the allocation). -/
def add_collider (w : PhysicsWorld) : Handle × PhysicsWorld :=
  ((w.collider_count : Handle), { w with collider_count := w.collider_count + 1 })

/-- Insert a joint between two bodies, from add_joint and the direct
impulse_joint_set insertions (joint data is held by the external engine;
the model records the allocation). -/
def add_joint (w : PhysicsWorld) : Handle × PhysicsWorld :=
  ((w.joint_count : Handle), { w with joint_count := w.joint_count + 1 })

/-- Body position lookup, from get_body_position: map over the optional body. -/
def get_body_position (w : PhysicsWorld) (h : Handle) : Option Vec3 :=
  (w.bodies h).map fun body => body.translation

/-- Body rotation lookup, from get_body_rotation. -/
def get_body_rotation (w : PhysicsWorld) (h : Handle) : Option Quat :=
  (w.bodies h).map fun body => body.rotation

/-- Additive torque application, from apply_torque: a missing handle is a
silent no-op. -/
def apply_torque (w : PhysicsWorld) (h : Handle) (t : Vec3) : PhysicsWorld :=
  match w.bodies h with
  | none => w
  | some body =>
    { w with bodies := fun h2 =>
        if h2 = h then some { body with torque := body.torque + t } else w.bodies h2 }

/-- Additive force application, from apply_force: a missing handle is a
silent no-op. -/
def apply_force (w : PhysicsWorld) (h : Handle) (f : Vec3) : PhysicsWorld :=
  match w.bodies h with
  | none => w
  | some body =>
    { w with bodies := fun h2 =>
        if h2 = h then some { body with force := body.force + f } else w.bodies h2 }

/-- Instantaneous impulse on a body (rapier apply_impulse), accumulated on
the body; missing handles are silent no-ops. -/
def apply_impulse (w : PhysicsWorld) (h : Handle) (imp : Vec3) : PhysicsWorld :=
  match w.bodies h with
  | none => w
  | some body =>
    { w with bodies := fun h2 =>
        if h2 = h then some { body with impulse := body.impulse + imp } else w.bodies h2 }

end PhysicsWorld

/- ════════════════ skeleton.rs: Bone and Skeleton ════════════════ -/

/-- Per-axis joint angle limits, from skeleton.rs. -/
structure AngleLimits where
  twist_min : ℝ
  twist_max : ℝ
  swing_x_min : ℝ
  swing_x_max : ℝ
  swing_z_min : ℝ
  swing_z_max : ℝ

/-- Static bone geometry, from skeleton.rs. -/
structure Bone where
  id : BoneId
  length : ℝ
  radius : ℝ
  mass : ℝ
  local_offset : Vec3
  angle_limits : AngleLimits

/-- The physical skeleton: handle maps and the bone table, from skeleton.rs. -/
structure Skeleton where
  bodies : BoneId → Option Handle
  joints : BoneId → Option Handle
  bones : BoneId → Option Bone
  root_position : Vec3

namespace AngleLimits

noncomputable def free : AngleLimits :=
  ⟨-Real.pi, Real.pi, -Real.pi, Real.pi, -Real.pi, Real.pi⟩

def knee : AngleLimits := ⟨-0.1, 0.1, 0, 2.5, -0.1, 0.1⟩

def elbow : AngleLimits := ⟨-0.2, 0.2, 0, 2.4, -0.1, 0.1⟩

def shoulder : AngleLimits := ⟨-1.5, 1.5, -2.0, 1.0, -0.5, 2.5⟩

def hip : AngleLimits := ⟨-0.8, 0.8, -1.5, 2.0, -0.8, 1.2⟩

def neck : AngleLimits := ⟨-1.0, 1.0, -0.8, 0.5, -0.6, 0.6⟩

def spine : AngleLimits := ⟨-0.4, 0.4, -0.3, 0.4, -0.3, 0.3⟩

end AngleLimits

namespace Skeleton

/-- Bone table of define_bones (constant geometry from skeleton.rs). -/
noncomputable def define_bones (sk : Skeleton) : Skeleton :=
  { sk with bones := fun b =>
      match b with
      | .Pelvis => some ⟨.Pelvis, 0.15, 0.14, 12, ⟨0, 0, 0⟩, AngleLimits.free⟩
      | .Spine => some ⟨.Spine, 0.46, 0.16, 10, ⟨0, 0.075, 0⟩, AngleLimits.spine⟩
      | .Head => some ⟨.Head, 0.29, 0.09, 5, ⟨0, 0.23, 0⟩, AngleLimits.neck⟩
      | .LeftUpperArm => some ⟨.LeftUpperArm, 0.32, 0.05, 2.5, ⟨-0.29, 0.15, 0⟩, AngleLimits.shoulder⟩
      | .LeftLowerArm => some ⟨.LeftLowerArm, 0.29, 0.036, 1.5, ⟨0, -0.32, 0⟩, AngleLimits.elbow⟩
      | .RightUpperArm => some ⟨.RightUpperArm, 0.32, 0.05, 2.5, ⟨0.29, 0.15, 0⟩, AngleLimits.shoulder⟩
      | .RightLowerArm => some ⟨.RightLowerArm, 0.29, 0.036, 1.5, ⟨0, -0.32, 0⟩, AngleLimits.elbow⟩
      | .LeftUpperLeg => some ⟨.LeftUpperLeg, 0.45, 0.08, 8, ⟨-0.14, -0.075, 0⟩, AngleLimits.hip⟩
      | .LeftLowerLeg => some ⟨.LeftLowerLeg, 0.40, 0.045, 4, ⟨0, -0.45, 0⟩, AngleLimits.knee⟩
      | .RightUpperLeg => some ⟨.RightUpperLeg, 0.45, 0.08, 8, ⟨0.14, -0.075, 0⟩, AngleLimits.hip⟩
      | .RightLowerLeg => some ⟨.RightLowerLeg, 0.40, 0.045, 4, ⟨0, -0.45, 0⟩, AngleLimits.knee⟩ }

/-- Offset from the joint attach point to the bone center (the A-pose
center correction of create_bodies). -/
noncomputable def center_offset (bone_id : BoneId) (half_len : ℝ) : Vec3 :=
  let arm_x := half_len * Real.sin 0.44
  let arm_y := half_len * Real.cos 0.44
  match bone_id with
  | .LeftUpperLeg | .RightUpperLeg | .LeftLowerLeg | .RightLowerLeg => ⟨0, -half_len, 0⟩
  | .Spine | .Head => ⟨0, half_len, 0⟩
  | .LeftUpperArm => ⟨-arm_x, -arm_y, 0⟩
  | .RightUpperArm => ⟨arm_x, -arm_y, 0⟩
  | .LeftLowerArm => ⟨-arm_x, -arm_y, 0⟩
  | .RightLowerArm => ⟨arm_x, -arm_y, 0⟩
  | _ => ⟨0, 0, 0⟩

/-- Initial A-pose body rotation of create_bodies: arm bones are tilted
outward around Z by 0.44 radians, all other bones start unrotated. -/
noncomputable def initial_rotation (bone_id : BoneId) : Quat :=
  match bone_id with
  | .LeftUpperArm | .LeftLowerArm => Quat.from_rotation_z (-0.44)
  | .RightUpperArm | .RightLowerArm => Quat.from_rotation_z 0.44
  | _ => Quat.identity

/-- Body-creation pass of create_bodies: walk all bones in creation order,
compute each world-space center from the parent center, the attach
offset and the center correction, and insert one dynamic body plus one
capsule collider per bone. -/
noncomputable def create_bodies (sk : Skeleton) (physics : PhysicsWorld) (root_pos : Vec3) :
    Skeleton × PhysicsWorld :=
  let step := fun (acc : Skeleton × PhysicsWorld × (BoneId → Option Vec3)) (bone_id : BoneId) =>
    let (sk, physics, positions) := acc
    let bone := (sk.bones bone_id).getD ⟨bone_id, 0, 0, 0, ⟨0, 0, 0⟩, AngleLimits.knee⟩
    let world_pos :=
      match bone_id.parent with
      | some parent_id =>
        let parent_pos := (positions parent_id).getD ⟨0, 0, 0⟩
        let joint_point := parent_pos + bone.local_offset
        joint_point + center_offset bone_id (bone.length / 2)
      | none => root_pos
    let body : RigidBody :=
      { translation := world_pos
        rotation := initial_rotation bone_id
        linvel := 0
        angvel := 0
        force := 0
        torque := 0
        impulse := 0 }
    let (handle, physics) := physics.add_rigid_body body
    let (_, physics) := physics.add_collider
    ({ sk with bodies := fun b => if b = bone_id then some handle else sk.bodies b },
     physics,
     fun b => if b = bone_id then some world_pos else positions b)
  let res := BoneId.all_bones.foldl step (sk, physics, fun _ => none)
  (res.1, res.2.1)

/-- Joint-creation pass of create_joints: one joint per non-root bone in
creation order (joint anchors, limits and motors are consumed by the
external engine; the model records the joint handle per child bone). -/
noncomputable def create_joints (sk : Skeleton) (physics : PhysicsWorld) :
    Skeleton × PhysicsWorld :=
  BoneId.all_bones.foldl
    (fun (acc : Skeleton × PhysicsWorld) bone_id =>
      let (sk, physics) := acc
      match bone_id.parent with
      | none => (sk, physics)
      | some _ =>
        let (joint_handle, physics) := physics.add_joint
        ({ sk with joints := fun b => if b = bone_id then some joint_handle else sk.joints b },
         physics))
    (sk, physics)

/-- Skeleton construction, from Skeleton create_humanoid: define the bone
table, create the bodies, then create the joints. -/
noncomputable def create_humanoid (physics : PhysicsWorld) (position : Vec3) :
    Skeleton × PhysicsWorld :=
  let sk : Skeleton :=
    { bodies := fun _ => none
      joints := fun _ => none
      bones := fun _ => none
      root_position := position }
  let sk := sk.define_bones
  let (sk, physics) := sk.create_bodies physics position
  let (sk, physics) := sk.create_joints physics
  (sk, physics)

end Skeleton

/- ════════════════ muscle.rs: MuscleSystem, TargetPose, WalkCycle ════════════════ -/

/-- Muscle system with per-bone muscles and a global strength multiplier,
from muscle.rs. -/
structure MuscleSystem where
  muscles : BoneId → Option Muscle
  global_strength : ℝ

/-- Target pose: per-bone local target rotation, from muscle.rs.  The
source HashMap is modelled as a partial map on BoneId. -/
structure TargetPose where
  bone_rotations : BoneId → Option Quat

namespace MuscleSystem

/-- Humanoid muscle set with the per-bone gains and torque limits of
MuscleSystem create_humanoid (the root Pelvis has no muscle). -/
def create_humanoid : MuscleSystem :=
  { muscles := fun b =>
      match b with
      | .Pelvis => none
      | .Spine => some (Muscle.new .Spine 800 80 500)
      | .Head => some (Muscle.new .Head 250 25 120)
      | .LeftUpperArm => some (Muscle.new .LeftUpperArm 400 40 200)
      | .LeftLowerArm => some (Muscle.new .LeftLowerArm 300 30 150)
      | .RightUpperArm => some (Muscle.new .RightUpperArm 400 40 200)
      | .RightLowerArm => some (Muscle.new .RightLowerArm 300 30 150)
      | .LeftUpperLeg => some (Muscle.new .LeftUpperLeg 1000 100 800)
      | .LeftLowerLeg => some (Muscle.new .LeftLowerLeg 800 80 600)
      | .RightUpperLeg => some (Muscle.new .RightUpperLeg 1000 100 800)
      | .RightLowerLeg => some (Muscle.new .RightLowerLeg 800 80 600)
    global_strength := 1 }

/-- Pose assignment, from set_pose: every bone that has both a pose entry
and a muscle gets its muscle target updated. -/
def set_pose (ms : MuscleSystem) (pose : TargetPose) : MuscleSystem :=
  { ms with muscles := fun b =>
      match ms.muscles b, pose.bone_rotations b with
      | some m, some r => some { m with target_rotation := r }
      | some m, none => some m
      | none, _ => none }

/-- Muscle torque application, from MuscleSystem update: for every muscle
whose bone has a live body, compute the PD torque at the current body
rotation and angular velocity, scale by global_strength, and apply it
additively.  The source iterates a HashMap in unspecified order; the
model walks the bones in canonical order (the per-body torque updates
are independent across bones). -/
noncomputable def update (ms : MuscleSystem) (physics : PhysicsWorld) (skeleton : Skeleton) :
    PhysicsWorld :=
  BoneId.all_bones.foldl
    (fun w bone_id =>
      match ms.muscles bone_id with
      | none => w
      | some muscle =>
        match skeleton.bodies bone_id with
        | none => w
        | some body_handle =>
          match w.bodies body_handle with
          | none => w
          | some body =>
            let torque := muscle.calculate_torque body.rotation body.angvel
            w.apply_torque body_handle (ms.global_strength • torque))
    physics

/-- Clamped per-muscle strength setter, from set_muscle_strength. -/
def set_muscle_strength (ms : MuscleSystem) (bone_id : BoneId) (strength : ℝ) : MuscleSystem :=
  { ms with muscles := fun b =>
      if b = bone_id then
        match ms.muscles bone_id with
        | some m => some { m with strength := min (max strength 0) 1 }
        | none => none
      else ms.muscles b }

/-- Ragdoll switch, from MuscleSystem go_ragdoll. -/
def go_ragdoll (ms : MuscleSystem) : MuscleSystem := { ms with global_strength := 0 }

/-- Control recovery switch, from MuscleSystem recover. -/
def recover (ms : MuscleSystem) : MuscleSystem := { ms with global_strength := 1 }

end MuscleSystem

namespace TargetPose

/-- Neutral T-pose, from TargetPose t_pose: identity everywhere, then the
upper arms overridden to horizontal Z rotations. -/
noncomputable def t_pose : TargetPose :=
  ⟨fun b =>
    if b = .LeftUpperArm then some (Quat.from_rotation_z (-(Real.pi / 2)))
    else if b = .RightUpperArm then some (Quat.from_rotation_z (Real.pi / 2))
    else some Quat.identity⟩

/-- Standing pose, from TargetPose standing: identity everywhere, arms
slightly lowered, elbows slightly bent. -/
noncomputable def standing : TargetPose :=
  ⟨fun b =>
    if b = .LeftUpperArm then some (Quat.from_rotation_z (-0.3))
    else if b = .RightUpperArm then some (Quat.from_rotation_z 0.3)
    else if b = .LeftLowerArm then some (Quat.from_rotation_x 0.2)
    else if b = .RightLowerArm then some (Quat.from_rotation_x 0.2)
    else some Quat.identity⟩

end TargetPose

namespace Quat

/-- glam Quat lerp: linear interpolation toward the dot-aligned end
quaternion, then normalization. -/
noncomputable def lerp (q e : Quat) (s : ℝ) : Quat :=
  let dot := q.dot e
  let bias : ℝ := if dot ≥ 0 then 1 else -1
  (q + ((e.smul bias) - q).smul s).normalize

/-- glam Quat slerp: flip the end quaternion onto the same hemisphere,
fall back to normalized lerp above the 0.9995 dot threshold, otherwise
interpolate with the spherical sine weights. -/
noncomputable def slerp (q e : Quat) (s : ℝ) : Quat :=
  let dot := q.dot e
  let p := if dot < 0 then (e.neg, -dot) else (e, dot)
  if p.2 > 0.9995 then lerp q p.1 s
  else
    let theta := Real.arccos p.2
    let scale1 := Real.sin (theta * (1 - s))
    let scale2 := Real.sin (theta * s)
    ((q.smul scale1) + (p.1.smul scale2)).smul (Real.sin theta)⁻¹

end Quat

/-- Pose interpolation, from TargetPose lerp: per-bone slerp over every
bone in all_bones (which enumerates every BoneId), with identity
substituted for missing entries. -/
noncomputable def TargetPose.lerp (a b : TargetPose) (t : ℝ) : TargetPose :=
  ⟨fun bone_id =>
    let rot_a := (a.bone_rotations bone_id).getD Quat.identity
    let rot_b := (b.bone_rotations bone_id).getD Quat.identity
    some (Quat.slerp rot_a rot_b t)⟩

/-- Procedural walk cycle state, from muscle.rs. -/
structure WalkCycle where
  phase : ℝ
  speed : ℝ
  stride_length : ℝ
  step_height : ℝ
  hip_sway : ℝ
  spine_lean_forward : ℝ
  arm_swing_amount : ℝ

namespace WalkCycle

/-- Default walk cycle parameters, from WalkCycle new. -/
def new : WalkCycle :=
  { phase := 0
    speed := 1
    stride_length := 0.5
    step_height := 0.15
    hip_sway := 0.05
    spine_lean_forward := 0.1
    arm_swing_amount := 0.3 }

/-- Phase update, from WalkCycle update: advance only while walking, with
a single wrap subtraction when the phase reaches 1. -/
noncomputable def update (wc : WalkCycle) (delta : ℝ) (is_walking : Bool) : WalkCycle :=
  if is_walking then
    let phase := wc.phase + delta * wc.speed * 2
    if phase ≥ 1 then { wc with phase := phase - 1 } else { wc with phase := phase }
  else wc

/-- Walking pose synthesis, from WalkCycle get_pose: smooth-stepped phase
drives alternating leg swing with gated knee flexion, counter-phase arm
swing, and a speed-proportional torso twist and forward lean. -/
noncomputable def get_pose (wc : WalkCycle) : TargetPose :=
  let smoothed_phase := smooth_step wc.phase
  let phase_rad := smoothed_phase * (2 * Real.pi)
  let leg_swing := Real.sin phase_rad * wc.stride_length
  let left_knee_bend := min (max (-leg_swing) 0 * (1.5 + wc.step_height)) 1.2
  let right_knee_bend := min (max leg_swing 0 * (1.5 + wc.step_height)) 1.2
  let arm_swing := Real.sin phase_rad * wc.arm_swing_amount
  let torso_twist := Real.sin phase_rad * 0.1
  let forward_lean := -wc.spine_lean_forward * min (wc.speed / 3) 1
  ⟨fun b =>
    match b with
    | .LeftUpperLeg => some (Quat.from_rotation_x (-leg_swing))
    | .LeftLowerLeg => some (Quat.from_rotation_x left_knee_bend)
    | .RightUpperLeg => some (Quat.from_rotation_x leg_swing)
    | .RightLowerLeg => some (Quat.from_rotation_x right_knee_bend)
    | .LeftUpperArm => some (Quat.from_rotation_z (-0.2) * Quat.from_rotation_x arm_swing)
    | .RightUpperArm => some (Quat.from_rotation_z 0.2 * Quat.from_rotation_x (-arm_swing))
    | .LeftLowerArm => some (Quat.from_rotation_x 0.3)
    | .RightLowerArm => some (Quat.from_rotation_x 0.3)
    | .Spine => some (Quat.from_rotation_x forward_lean * Quat.from_rotation_y torso_twist)
    | _ => some Quat.identity⟩

end WalkCycle

/- ════════════════ ragdoll.rs: ActiveRagdoll ════════════════ -/

/-- Ragdoll operating mode, from ragdoll.rs. -/
inductive RagdollMode where
  | Active
  | Ragdoll
  | Recovery (progress : ℝ)

/-- Active ragdoll character state, from ragdoll.rs (the physics world is
threaded explicitly through the operations that mutate it). -/
structure ActiveRagdoll where
  skeleton : Skeleton
  muscles : MuscleSystem
  mode : RagdollMode
  walk_cycle : WalkCycle
  is_walking : Bool
  move_direction : Vec3
  current_pose : TargetPose
  target_position : Vec3
  target_yaw : ℝ
  move_speed : ℝ
  upright_force : ℝ
  movement_force : ℝ
  rotation_force : ℝ
  frame_count : ℕ

namespace ActiveRagdoll

/-- Character construction, from ActiveRagdoll new: humanoid skeleton and
muscles, pure Ragdoll start mode, standing pose, default control gains. -/
noncomputable def new (physics : PhysicsWorld) (position : Vec3) :
    ActiveRagdoll × PhysicsWorld :=
  let sw := Skeleton.create_humanoid physics position
  ({ skeleton := sw.1
     muscles := MuscleSystem.create_humanoid
     mode := RagdollMode.Ragdoll
     walk_cycle := WalkCycle.new
     is_walking := false
     move_direction := ⟨0, 0, -1⟩
     current_pose := TargetPose.standing
     target_position := position
     target_yaw := 0
     move_speed := 3
     upright_force := 500
     movement_force := 200
     rotation_force := 100
     frame_count := 0 }, sw.2)

/-- Pelvis steering, from apply_movement_control: while walking, advance
the target position along the move direction and push the pelvis toward
it in the XZ plane; always apply a clamped yaw-correcting torque about Y
toward the target yaw. -/
noncomputable def apply_movement_control (r : ActiveRagdoll) (physics : PhysicsWorld)
    (delta : ℝ) : ActiveRagdoll × PhysicsWorld :=
  match r.skeleton.bodies BoneId.Pelvis with
  | none => (r, physics)
  | some handle =>
    match physics.bodies handle with
    | none => (r, physics)
    | some body =>
      let rw :=
        if r.is_walking then
          let target_position := r.target_position + (r.move_speed * delta) • r.move_direction
          let current_pos := body.translation
          let diff : Vec3 := ⟨target_position.x - current_pos.x, 0,
                              target_position.z - current_pos.z⟩
          let force := r.movement_force • diff
          ({ r with target_position := target_position },
           physics.apply_force handle ⟨force.x, 0, force.z⟩)
        else (r, physics)
      let target_quat := Quat.from_rotation_y r.target_yaw
      let current_quat := body.rotation
      let error_quat := target_quat * current_quat.inverse
      let aa := error_quat.to_axis_angle
      let angle := if aa.2 > Real.pi then aa.2 - 2 * Real.pi else aa.2
      let torque_y := aa.1.y * angle * r.rotation_force
      let torque_y := min (max torque_y (-50)) 50
      (rw.1, rw.2.apply_torque handle ⟨0, torque_y, 0⟩)

/-- Upright correction, from apply_upright_torque: clamped axis-wise
torque (yaw excluded) on the pelvis and, at half gain, on the spine,
proportional to the tilt angle of the local up axis from world up. -/
noncomputable def apply_upright_torque (r : ActiveRagdoll) (physics : PhysicsWorld) :
    PhysicsWorld :=
  match r.skeleton.bodies BoneId.Pelvis with
  | none => physics
  | some handle =>
    match physics.bodies handle with
    | none => physics
    | some body =>
      let up_local : Vec3 := ⟨0, 1, 0⟩
      let up_world := body.rotation.rotate_vec up_local
      let target_up : Vec3 := ⟨0, 1, 0⟩
      let correction_axis := up_world.cross target_up
      let d := min (max (up_world.dot target_up) (-1)) 1
      let angle := Real.arccos d
      let physics :=
        if angle > 0.01 then
          let torque := (angle * r.upright_force) • correction_axis
          physics.apply_torque handle
            ⟨min (max torque.x (-100)) 100, 0, min (max torque.z (-100)) 100⟩
        else physics
      match r.skeleton.bodies BoneId.Spine with
      | none => physics
      | some spine_handle =>
        match physics.bodies spine_handle with
        | none => physics
        | some spine_body =>
          let spine_up := spine_body.rotation.rotate_vec up_local
          let spine_correction := spine_up.cross target_up
          let spine_dot := min (max (spine_up.dot target_up) (-1)) 1
          let spine_angle := Real.arccos spine_dot
          if spine_angle > 0.01 then
            let spine_torque := (spine_angle * r.upright_force * 0.5) • spine_correction
            physics.apply_torque spine_handle
              ⟨min (max spine_torque.x (-50)) 50, 0, min (max spine_torque.z (-50)) 50⟩
          else physics

/-- Per-tick update, from ActiveRagdoll update, in source order: advance
the frame counter (logging is diagnostics only), resolve the mode into
global_strength (Recovery ramps linearly and flips to Active at progress
1), apply steering and upright control when Active, advance the walk
cycle, pick the walking or standing pose by a hard switch, push the pose
into the muscles and apply the muscle torques. -/
noncomputable def update (r : ActiveRagdoll) (physics : PhysicsWorld) (delta : ℝ) :
    ActiveRagdoll × PhysicsWorld :=
  let r := { r with frame_count := r.frame_count + 1 }
  let r :=
    match r.mode with
    | RagdollMode.Active =>
      { r with muscles := { r.muscles with global_strength := 1 } }
    | RagdollMode.Ragdoll =>
      { r with muscles := { r.muscles with global_strength := 0 } }
    | RagdollMode.Recovery progress =>
      let new_progress := min (progress + delta * 0.5) 1
      let r := { r with muscles := { r.muscles with global_strength := new_progress } }
      if new_progress ≥ 1 then { r with mode := RagdollMode.Active }
      else { r with mode := RagdollMode.Recovery new_progress }
  let rw :=
    match r.mode with
    | RagdollMode.Active =>
      let rw := r.apply_movement_control physics delta
      (rw.1, rw.1.apply_upright_torque rw.2)
    | _ => (r, physics)
  let r := rw.1
  let physics := rw.2
  let r := { r with walk_cycle := r.walk_cycle.update delta r.is_walking }
  let r :=
    { r with current_pose := if r.is_walking then r.walk_cycle.get_pose else TargetPose.standing }
  let r := { r with muscles := r.muscles.set_pose r.current_pose }
  (r, r.muscles.update physics r.skeleton)

/-- Iterated ticks: n successive update calls with a fixed delta. -/
noncomputable def updateIter (r : ActiveRagdoll) (physics : PhysicsWorld) (delta : ℝ) :
    ℕ → ActiveRagdoll × PhysicsWorld
  | 0 => (r, physics)
  | n + 1 =>
    let rw := updateIter r physics delta n
    rw.1.update rw.2 delta

/-- Mode switch to Ragdoll, from go_ragdoll: also stops walking. -/
def go_ragdoll (r : ActiveRagdoll) : ActiveRagdoll :=
  { r with mode := RagdollMode.Ragdoll, is_walking := false }

/-- Start of the recovery ramp, from start_recovery. -/
def start_recovery (r : ActiveRagdoll) : ActiveRagdoll :=
  { r with mode := RagdollMode.Recovery 0 }

/-- Impact response, from apply_impact: if the struck bone has a body,
apply the impulse to it and multiply that bone muscle strength by 0.3;
other muscles are untouched. -/
def apply_impact (r : ActiveRagdoll) (physics : PhysicsWorld) (bone_id : BoneId)
    (impulse : Vec3) : ActiveRagdoll × PhysicsWorld :=
  match r.skeleton.bodies bone_id with
  | none => (r, physics)
  | some handle =>
    let physics := physics.apply_impulse handle impulse
    let muscles := fun b =>
      if b = bone_id then
        match r.muscles.muscles bone_id with
        | some m => some { m with strength := m.strength * 0.3 }
        | none => none
      else r.muscles.muscles b
    ({ r with muscles := { r.muscles with muscles := muscles } }, physics)

end ActiveRagdoll

/- ════════════════ concrete instances used by witnesses and counterexamples ════════════════ -/

/-- Minimal concrete skeleton: every bone mapped to body handle 0. -/
def sampleSkeleton : Skeleton :=
  { bodies := fun _ => some 0
    joints := fun _ => none
    bones := fun _ => none
    root_position := ⟨0, 0, 0⟩ }

/-- Concrete ragdoll state in Ragdoll mode with the humanoid muscles. -/
noncomputable def sampleRagdoll : ActiveRagdoll :=
  { skeleton := sampleSkeleton
    muscles := MuscleSystem.create_humanoid
    mode := RagdollMode.Ragdoll
    walk_cycle := WalkCycle.new
    is_walking := false
    move_direction := ⟨0, 0, -1⟩
    current_pose := TargetPose.standing
    target_position := ⟨0, 0, 0⟩
    target_yaw := 0
    move_speed := 3
    upright_force := 500
    movement_force := 200
    rotation_force := 100
    frame_count := 0 }

/-- Concrete ragdoll state in Active mode. -/
noncomputable def sampleRagdollActive : ActiveRagdoll :=
  { sampleRagdoll with mode := RagdollMode.Active }

/-- Concrete ragdoll state in Recovery mode at progress 0.5. -/
noncomputable def sampleRagdollRecovery : ActiveRagdoll :=
  { sampleRagdoll with mode := RagdollMode.Recovery 0.5 }

/-- Spine muscle immediately after one apply_impact (strength 0.3). -/
def cexMuscle : Muscle := ⟨BoneId.Spine, 800, 80, 500, Quat.identity, 0.3⟩

/-- Concrete angular velocity producing a large derivative term. -/
def cexOmega : Vec3 := ⟨-100, 0, 0⟩


/- ════════════════ basic component lemmas ════════════════ -/

@[simp] theorem Vec3.add_def (a b : Vec3) : a + b = ⟨a.x + b.x, a.y + b.y, a.z + b.z⟩ := rfl

@[simp] theorem Vec3.smul_def (c : ℝ) (a : Vec3) : c • a = ⟨c * a.x, c * a.y, c * a.z⟩ := rfl

@[simp] theorem Vec3.neg_def (a : Vec3) : -a = ⟨-a.x, -a.y, -a.z⟩ := rfl

@[simp] theorem Vec3.zero_def : (0 : Vec3) = ⟨0, 0, 0⟩ := rfl

@[simp] theorem Quat.add_coords (a b : Quat) :
    a + b = ⟨a.x + b.x, a.y + b.y, a.z + b.z, a.w + b.w⟩ := rfl

@[simp] theorem Quat.neg_coords (a : Quat) : -a = ⟨-a.x, -a.y, -a.z, -a.w⟩ := rfl

@[simp] theorem Quat.sub_def (a b : Quat) :
    a - b = ⟨a.x - b.x, a.y - b.y, a.z - b.z, a.w - b.w⟩ := rfl

@[simp] theorem Quat.smul_coords (a : Quat) (c : ℝ) :
    a.smul c = ⟨a.x * c, a.y * c, a.z * c, a.w * c⟩ := rfl

@[simp] theorem Quat.mul_def (a b : Quat) :
    a * b = ⟨a.w * b.x + a.x * b.w + a.y * b.z - a.z * b.y,
             a.w * b.y - a.x * b.z + a.y * b.w + a.z * b.x,
             a.w * b.z + a.x * b.y - a.y * b.x + a.z * b.w,
             a.w * b.w - a.x * b.x - a.y * b.y - a.z * b.z⟩ := rfl

theorem Vec3.dot_self_nonneg (a : Vec3) : 0 ≤ a.dot a := by
  unfold Vec3.dot
  nlinarith [mul_self_nonneg a.x, mul_self_nonneg a.y, mul_self_nonneg a.z]

theorem Vec3.length_nonneg (a : Vec3) : 0 ≤ a.length := Real.sqrt_nonneg _

theorem Vec3.length_zero : (0 : Vec3).length = 0 := by
  show Real.sqrt ((0 : ℝ) * 0 + 0 * 0 + 0 * 0) = 0
  norm_num

theorem Vec3.length_smul (c : ℝ) (a : Vec3) : (c • a).length = |c| * a.length := by
  unfold Vec3.length Vec3.dot
  have h : (c • a).x * (c • a).x + (c • a).y * (c • a).y + (c • a).z * (c • a).z =
      c ^ 2 * (a.x * a.x + a.y * a.y + a.z * a.z) := by
    simp
    ring
  rw [h, Real.sqrt_mul (sq_nonneg c), Real.sqrt_sq_eq_abs]

/- ════════════════ C8: the bone parent graph is a tree ════════════════ -/

theorem iterParent_four_none : ∀ b : BoneId, iterParent 4 b = none := by decide

theorem iterParent_ge_four (b : BoneId) (k : ℕ) : iterParent (4 + k) b = none := by
  unfold iterParent
  rw [add_comm, Function.iterate_add_apply]
  have h4 : parentStep^[4] (some b) = none := iterParent_four_none b
  rw [h4]
  exact Function.iterate_fixed rfl k

/-- C8: the BoneId parent relation is a tree rooted at Pelvis: Pelvis is
the unique bone without a parent, every bone reaches Pelvis by exactly
its depth of parent steps, that depth is at most 3, no chain of parent
steps returns to its starting bone, and all_bones lists every parent
strictly before any of its children. -/
theorem bone_parent_graph_is_tree :
    (∀ b : BoneId, b.parent = none ↔ b = BoneId.Pelvis) ∧
    (∀ b : BoneId, b ≠ BoneId.Pelvis → ∃ p, b.parent = some p) ∧
    (∀ b : BoneId, iterParent b.depth b = some BoneId.Pelvis) ∧
    (∀ b : BoneId, b.depth ≤ 3) ∧
    (∀ (b : BoneId) (n : ℕ), 0 < n → iterParent n b ≠ some b) ∧
    (∀ b p : BoneId, b.parent = some p →
      List.indexOf p BoneId.all_bones < List.indexOf b BoneId.all_bones) := by
  refine ⟨by decide, by decide, by decide, by decide, ?_, by decide⟩
  intro b n hn
  by_cases h4 : n < 4
  · interval_cases n
    · revert b; decide
    · revert b; decide
    · revert b; decide
  · obtain ⟨k, rfl⟩ : ∃ k, n = 4 + k := ⟨n - 4, by omega⟩
    rw [iterParent_ge_four]
    simp

/-- Witness for C8 at concrete bones: the hypotheses of the cycle-freedom
and ordering conjuncts hold and the conclusions follow. -/
theorem bone_parent_graph_is_tree_witness :
    ((0 < 2) ∧ iterParent 2 BoneId.LeftLowerArm ≠ some BoneId.LeftLowerArm) ∧
    ((BoneId.LeftLowerArm.parent = some BoneId.LeftUpperArm) ∧
     List.indexOf BoneId.LeftUpperArm BoneId.all_bones <
       List.indexOf BoneId.LeftLowerArm BoneId.all_bones) :=
  ⟨⟨by decide, bone_parent_graph_is_tree.2.2.2.2.1 BoneId.LeftLowerArm 2 (by decide)⟩,
   ⟨by decide, bone_parent_graph_is_tree.2.2.2.2.2 BoneId.LeftLowerArm BoneId.LeftUpperArm
      (by decide)⟩⟩

/- ════════════════ C9: missing handles are silent no-ops ════════════════ -/

/-- C9: for a rigid-body handle not present in the world, position and
rotation lookups return an absent optional, and force and torque
application leave the world completely unchanged. -/
theorem missing_handle_lookups_are_noops (w : PhysicsWorld) (h : Handle)
    (habs : w.bodies h = none) (f t : Vec3) :
    w.get_body_position h = none ∧ w.get_body_rotation h = none ∧
    w.apply_force h f = w ∧ w.apply_torque h t = w := by
  refine ⟨?_, ?_, ?_, ?_⟩ <;>
    simp [PhysicsWorld.get_body_position, PhysicsWorld.get_body_rotation,
      PhysicsWorld.apply_force, PhysicsWorld.apply_torque, habs]

/-- Witness for C9: handle 0 is absent from the fresh world and all four
operations behave as stated there. -/
theorem missing_handle_lookups_are_noops_witness :
    (PhysicsWorld.new.bodies 0 = none) ∧
    PhysicsWorld.new.get_body_position 0 = none ∧
    PhysicsWorld.new.get_body_rotation 0 = none ∧
    PhysicsWorld.new.apply_force 0 ⟨1, 2, 3⟩ = PhysicsWorld.new ∧
    PhysicsWorld.new.apply_torque 0 ⟨4, 5, 6⟩ = PhysicsWorld.new :=
  ⟨rfl,
   (missing_handle_lookups_are_noops PhysicsWorld.new 0 rfl ⟨1, 2, 3⟩ ⟨4, 5, 6⟩).1,
   (missing_handle_lookups_are_noops PhysicsWorld.new 0 rfl ⟨1, 2, 3⟩ ⟨4, 5, 6⟩).2.1,
   (missing_handle_lookups_are_noops PhysicsWorld.new 0 rfl ⟨1, 2, 3⟩ ⟨4, 5, 6⟩).2.2.1,
   (missing_handle_lookups_are_noops PhysicsWorld.new 0 rfl ⟨1, 2, 3⟩ ⟨4, 5, 6⟩).2.2.2⟩

/- ════════════════ C5: torque magnitude never exceeds max_torque ════════════════ -/

theorem Vec3.length_smul_normalize (v : Vec3) (mx : ℝ) (hmx : 0 ≤ mx)
    (h : mx < v.length) : (mx • v.normalize).length = mx := by
  have hv : 0 < v.length := lt_of_le_of_lt hmx h
  rw [Vec3.normalize, Vec3.length_smul, Vec3.length_smul, abs_of_nonneg hmx,
    abs_of_nonneg (inv_nonneg.mpr hv.le), inv_mul_cancel₀ hv.ne', mul_one]

/-- C5: the magnitude of the vector returned by calculate_torque never
exceeds the muscle max_torque (stated over the exact reals of the model;
every muscle of the program has nonnegative max_torque). -/
theorem calculate_torque_le_max (m : Muscle) (hmx : 0 ≤ m.max_torque)
    (current_rotation : Quat) (angular_velocity : Vec3) :
    (m.calculate_torque current_rotation angular_velocity).length ≤ m.max_torque := by
  simp only [Muscle.calculate_torque]
  split_ifs with h1 h2
  · rw [Vec3.length_zero]; exact hmx
  · exact le_of_eq (Vec3.length_smul_normalize _ m.max_torque hmx h2)
  · exact not_lt.mp h2

/-- Witness for C5: the Spine muscle of the humanoid has nonnegative
max_torque and its torque at the identity pose with zero angular
velocity respects the bound. -/
theorem calculate_torque_le_max_witness :
    (0 ≤ (Muscle.new BoneId.Spine 800 80 500).max_torque) ∧
    ((Muscle.new BoneId.Spine 800 80 500).calculate_torque Quat.identity 0).length ≤
      (Muscle.new BoneId.Spine 800 80 500).max_torque :=
  ⟨by norm_num [Muscle.new],
   calculate_torque_le_max (Muscle.new BoneId.Spine 800 80 500)
     (by norm_num [Muscle.new]) Quat.identity 0⟩

/- ════════════════ C6: the correction angle lies in (-pi, pi] ════════════════ -/

theorem atan2_pos_lt_pi (y x : ℝ) (hy : 0 < y) : 0 < atan2 y x ∧ atan2 y x < Real.pi := by
  unfold atan2
  split_ifs with hx1 hx2 hy0
  · constructor
    · have h0 : Real.arctan 0 < Real.arctan (y / x) :=
        Real.arctan_strictMono (div_pos hy hx1)
      rwa [Real.arctan_zero] at h0
    · exact lt_trans (Real.arctan_lt_pi_div_two _) (by linarith [Real.pi_pos])
  · have hdiv : y / x < 0 := div_neg_of_pos_of_neg hy hx2
    have hlt : Real.arctan (y / x) < 0 := by
      have h0 := Real.arctan_strictMono hdiv
      rwa [Real.arctan_zero] at h0
    have hgt : -(Real.pi / 2) < Real.arctan (y / x) := Real.neg_pi_div_two_lt_arctan _
    constructor
    · linarith [Real.pi_pos]
    · linarith
  · linarith
  · constructor
    · linarith [Real.pi_pos]
    · linarith [Real.pi_pos]

/-- C6: for every pair of target and current rotations, the normalized
correction angle used by the proportional term of calculate_torque lies
in the interval (-pi, pi]. -/
theorem correction_angle_in_range (target current : Quat) :
    -Real.pi < normalize_angle ((target * current.inverse).to_axis_angle).2 ∧
    normalize_angle ((target * current.inverse).to_axis_angle).2 ≤ Real.pi := by
  have key : ∀ q : Quat,
      -Real.pi < normalize_angle (q.to_axis_angle).2 ∧
      normalize_angle (q.to_axis_angle).2 ≤ Real.pi := by
    intro q
    simp only [Quat.to_axis_angle]
    split_ifs with hlen
    · dsimp only
      have hy : 0 < (Vec3.mk q.x q.y q.z).length :=
        lt_of_lt_of_le (by norm_num) hlen
      obtain ⟨h1, h2⟩ := atan2_pos_lt_pi (Vec3.mk q.x q.y q.z).length q.w hy
      unfold normalize_angle
      split_ifs with ha hb
      · constructor <;> linarith
      · linarith
      · constructor <;> linarith [Real.pi_pos]
    · dsimp only
      unfold normalize_angle
      split_ifs with ha hb
      · linarith [Real.pi_pos]
      · linarith [Real.pi_pos]
      · constructor <;> linarith [Real.pi_pos]
  exact key (target * current.inverse)

/- ════════════════ C3: walk cycle phase behaviour ════════════════ -/

/-- Counterexample to C3 as stated: at the default walk cycle (phase 0,
speed 1) with delta = 1 and walking enabled — inputs satisfying every
precondition of the claim — the updated phase is exactly 1, which is
not in [0, 1). -/
theorem walkcycle_phase_counterexample :
    ((0 : ℝ) ≤ 1 ∧ 0 ≤ WalkCycle.new.phase ∧ WalkCycle.new.phase < 1) ∧
    (WalkCycle.new.update 1 true).phase = 1 ∧
    ¬ ((WalkCycle.new.update 1 true).phase < 1) := by
  refine ⟨⟨by norm_num, by norm_num [WalkCycle.new], by norm_num [WalkCycle.new]⟩, ?_, ?_⟩ <;>
    norm_num [WalkCycle.update, WalkCycle.new]

/-- C3 amended: with a nonnegative speed and a step small enough that at
most one wrap occurs (delta * speed * 2 ≤ 1, true at every realistic
frame delta), update with walking disabled leaves the phase unchanged,
and any update keeps the phase in [0, 1). -/
theorem walkcycle_update_phase_invariant (wc : WalkCycle) (delta : ℝ) (walking : Bool)
    (h0 : 0 ≤ wc.phase) (h1 : wc.phase < 1) (hd : 0 ≤ delta) (hs : 0 ≤ wc.speed)
    (hstep : delta * wc.speed * 2 ≤ 1) :
    (wc.update delta false).phase = wc.phase ∧
    0 ≤ (wc.update delta walking).phase ∧ (wc.update delta walking).phase < 1 := by
  have hstep0 : 0 ≤ delta * wc.speed * 2 := by positivity
  refine ⟨rfl, ?_, ?_⟩ <;>
  · cases walking with
    | false => simp only [WalkCycle.update]; first | exact h0 | exact h1
    | true =>
      simp only [WalkCycle.update]
      split_ifs with h <;> simp only at h ⊢ <;> linarith

/-- Witness for C3 amended: the default walk cycle with delta 0.1
satisfies every hypothesis and the conclusions follow. -/
theorem walkcycle_update_phase_invariant_witness :
    ((0 : ℝ) ≤ WalkCycle.new.phase ∧ WalkCycle.new.phase < 1 ∧ (0 : ℝ) ≤ 0.1 ∧
      0 ≤ WalkCycle.new.speed ∧ (0.1 : ℝ) * WalkCycle.new.speed * 2 ≤ 1) ∧
    ((WalkCycle.new.update 0.1 false).phase = WalkCycle.new.phase ∧
      0 ≤ (WalkCycle.new.update 0.1 true).phase ∧
      (WalkCycle.new.update 0.1 true).phase < 1) :=
  ⟨⟨by norm_num [WalkCycle.new], by norm_num [WalkCycle.new], by norm_num,
    by norm_num [WalkCycle.new], by norm_num [WalkCycle.new]⟩,
   ⟨(walkcycle_update_phase_invariant WalkCycle.new 0.1 true
       (by norm_num [WalkCycle.new]) (by norm_num [WalkCycle.new]) (by norm_num)
       (by norm_num [WalkCycle.new]) (by norm_num [WalkCycle.new])).1,
    (walkcycle_update_phase_invariant WalkCycle.new 0.1 true
       (by norm_num [WalkCycle.new]) (by norm_num [WalkCycle.new]) (by norm_num)
       (by norm_num [WalkCycle.new]) (by norm_num [WalkCycle.new])).2.1,
    (walkcycle_update_phase_invariant WalkCycle.new 0.1 true
       (by norm_num [WalkCycle.new]) (by norm_num [WalkCycle.new]) (by norm_num)
       (by norm_num [WalkCycle.new]) (by norm_num [WalkCycle.new])).2.2⟩⟩

/- ════════════════ C4: apply_impact weakens only the struck muscle ════════════════ -/

/-- C4: for a struck bone with a body and a muscle, apply_impact
multiplies exactly that muscle strength by 0.3, leaving every other
muscle (strength, gains, max torque, target) and the global strength
untouched. -/
theorem apply_impact_weakens_only_struck (r : ActiveRagdoll) (w : PhysicsWorld)
    (X : BoneId) (imp : Vec3) (hdl : Handle) (hb : r.skeleton.bodies X = some hdl)
    (m : Muscle) (hm : r.muscles.muscles X = some m) :
    ((r.apply_impact w X imp).1.muscles.muscles X =
      some { m with strength := m.strength * 0.3 }) ∧
    (∀ Y : BoneId, Y ≠ X → (r.apply_impact w X imp).1.muscles.muscles Y =
      r.muscles.muscles Y) ∧
    ((r.apply_impact w X imp).1.muscles.global_strength = r.muscles.global_strength) := by
  refine ⟨?_, ?_, ?_⟩
  · simp [ActiveRagdoll.apply_impact, hb, hm]
  · intro Y hY
    simp [ActiveRagdoll.apply_impact, hb, hY]
  · simp [ActiveRagdoll.apply_impact, hb]

/-- Witness for C4: striking the Spine of the sample ragdoll scales its
strength from 1 to 0.3 and leaves the Head muscle untouched. -/
theorem apply_impact_weakens_only_struck_witness :
    (sampleRagdoll.skeleton.bodies BoneId.Spine = some 0) ∧
    (sampleRagdoll.muscles.muscles BoneId.Spine = some (Muscle.new BoneId.Spine 800 80 500)) ∧
    ((sampleRagdoll.apply_impact PhysicsWorld.new BoneId.Spine ⟨1, 0, 0⟩).1.muscles.muscles
        BoneId.Spine =
      some { Muscle.new BoneId.Spine 800 80 500 with
              strength := (Muscle.new BoneId.Spine 800 80 500).strength * 0.3 }) ∧
    ((sampleRagdoll.apply_impact PhysicsWorld.new BoneId.Spine ⟨1, 0, 0⟩).1.muscles.muscles
        BoneId.Head = sampleRagdoll.muscles.muscles BoneId.Head) :=
  ⟨rfl, rfl,
   (apply_impact_weakens_only_struck sampleRagdoll PhysicsWorld.new BoneId.Spine ⟨1, 0, 0⟩
      0 rfl (Muscle.new BoneId.Spine 800 80 500) rfl).1,
   (apply_impact_weakens_only_struck sampleRagdoll PhysicsWorld.new BoneId.Spine ⟨1, 0, 0⟩
      0 rfl (Muscle.new BoneId.Spine 800 80 500) rfl).2.1 BoneId.Head (by decide)⟩

/- ════════════════ update pipeline lemmas (for C2 and C10) ════════════════ -/

theorem apply_movement_control_shape (r : ActiveRagdoll) (w : PhysicsWorld) (delta : ℝ) :
    ∃ tp, (r.apply_movement_control w delta).1 = { r with target_position := tp } := by
  unfold ActiveRagdoll.apply_movement_control
  repeat' split
  all_goals exact ⟨_, rfl⟩

theorem apply_movement_control_muscles (r : ActiveRagdoll) (w : PhysicsWorld) (delta : ℝ) :
    (r.apply_movement_control w delta).1.muscles = r.muscles := by
  obtain ⟨tp, h⟩ := apply_movement_control_shape r w delta
  rw [h]

theorem apply_movement_control_mode (r : ActiveRagdoll) (w : PhysicsWorld) (delta : ℝ) :
    (r.apply_movement_control w delta).1.mode = r.mode := by
  obtain ⟨tp, h⟩ := apply_movement_control_shape r w delta
  rw [h]

theorem apply_movement_control_is_walking (r : ActiveRagdoll) (w : PhysicsWorld) (delta : ℝ) :
    (r.apply_movement_control w delta).1.is_walking = r.is_walking := by
  obtain ⟨tp, h⟩ := apply_movement_control_shape r w delta
  rw [h]

theorem set_pose_global_strength (ms : MuscleSystem) (p : TargetPose) :
    (ms.set_pose p).global_strength = ms.global_strength := rfl

theorem update_gs_of_active (r : ActiveRagdoll) (w : PhysicsWorld) (d : ℝ)
    (h : r.mode = RagdollMode.Active) : (r.update w d).1.muscles.global_strength = 1 := by
  simp [ActiveRagdoll.update, h, apply_movement_control_muscles, MuscleSystem.set_pose]

theorem update_gs_of_ragdoll (r : ActiveRagdoll) (w : PhysicsWorld) (d : ℝ)
    (h : r.mode = RagdollMode.Ragdoll) : (r.update w d).1.muscles.global_strength = 0 := by
  simp [ActiveRagdoll.update, h, MuscleSystem.set_pose]

theorem update_gs_of_recovery (r : ActiveRagdoll) (w : PhysicsWorld) (d p : ℝ)
    (h : r.mode = RagdollMode.Recovery p) :
    (r.update w d).1.muscles.global_strength = min (p + d * 0.5) 1 := by
  simp only [ActiveRagdoll.update, h, MuscleSystem.set_pose]
  split_ifs with hge
  · simp [apply_movement_control_muscles, MuscleSystem.set_pose]
  · simp [MuscleSystem.set_pose]

theorem update_mode_of_active (r : ActiveRagdoll) (w : PhysicsWorld) (d : ℝ)
    (h : r.mode = RagdollMode.Active) : (r.update w d).1.mode = RagdollMode.Active := by
  simp [ActiveRagdoll.update, h, apply_movement_control_mode]

theorem update_mode_of_ragdoll (r : ActiveRagdoll) (w : PhysicsWorld) (d : ℝ)
    (h : r.mode = RagdollMode.Ragdoll) : (r.update w d).1.mode = RagdollMode.Ragdoll := by
  simp [ActiveRagdoll.update, h]

theorem update_mode_of_recovery (r : ActiveRagdoll) (w : PhysicsWorld) (d p : ℝ)
    (h : r.mode = RagdollMode.Recovery p) :
    (r.update w d).1.mode =
      (if min (p + d * 0.5) 1 ≥ 1 then RagdollMode.Active
       else RagdollMode.Recovery (min (p + d * 0.5) 1)) := by
  simp only [ActiveRagdoll.update, h]
  split_ifs with hge
  · simp [apply_movement_control_mode]
  · simp

theorem recovery_ramp (r : ActiveRagdoll) (w : PhysicsWorld) (d : ℝ) :
    ∀ k : ℕ, 1 ≤ k → r.mode = RagdollMode.Recovery 0 →
      (((r.updateIter w d k).1.mode = RagdollMode.Recovery ((k : ℝ) * (d * 0.5)) ∧
        (r.updateIter w d k).1.muscles.global_strength = (k : ℝ) * (d * 0.5) ∧
        (k : ℝ) * (d * 0.5) < 1) ∨
       ((r.updateIter w d k).1.mode = RagdollMode.Active ∧
        (r.updateIter w d k).1.muscles.global_strength = 1)) := by
  intro k
  induction k with
  | zero => intro h; omega
  | succ n ih =>
    intro _ hr
    by_cases hn : 1 ≤ n
    · rcases ih hn hr with ⟨hmode, _, hlt⟩ | ⟨hmode, _⟩
      · simp only [ActiveRagdoll.updateIter]
        have hmode2 := update_mode_of_recovery (r.updateIter w d n).1
          (r.updateIter w d n).2 d _ hmode
        have hgs2 := update_gs_of_recovery (r.updateIter w d n).1
          (r.updateIter w d n).2 d _ hmode
        by_cases hbig : (1 : ℝ) ≤ (n : ℝ) * (d * 0.5) + d * 0.5
        · right
          refine ⟨?_, ?_⟩
          · rw [hmode2, if_pos (le_min hbig le_rfl)]
          · rw [hgs2, min_eq_right hbig]
        · left
          have hlt2 : (n : ℝ) * (d * 0.5) + d * 0.5 < 1 := lt_of_not_le hbig
          have hminval : min ((n : ℝ) * (d * 0.5) + d * 0.5) 1 =
              (n : ℝ) * (d * 0.5) + d * 0.5 := min_eq_left hlt2.le
          have hcast : (n : ℝ) * (d * 0.5) + d * 0.5 = ((n + 1 : ℕ) : ℝ) * (d * 0.5) := by
            push_cast
            ring
          refine ⟨?_, ?_, ?_⟩
          · rw [hmode2, if_neg (by rw [hminval]; exact not_le.mpr hlt2), hminval, hcast]
          · rw [hgs2, hminval, hcast]
          · rw [← hcast]
            exact hlt2
      · simp only [ActiveRagdoll.updateIter]
        right
        exact ⟨update_mode_of_active _ _ d hmode, update_gs_of_active _ _ d hmode⟩
    · have hn0 : n = 0 := by omega
      subst hn0
      simp only [ActiveRagdoll.updateIter]
      have hmode2 := update_mode_of_recovery r w d 0 hr
      have hgs2 := update_gs_of_recovery r w d 0 hr
      by_cases hbig : (1 : ℝ) ≤ 0 + d * 0.5
      · right
        refine ⟨?_, ?_⟩
        · rw [hmode2, if_pos (le_min hbig le_rfl)]
        · rw [hgs2, min_eq_right hbig]
      · left
        have hlt2 : (0 : ℝ) + d * 0.5 < 1 := lt_of_not_le hbig
        have hminval : min ((0 : ℝ) + d * 0.5) 1 = 0 + d * 0.5 := min_eq_left hlt2.le
        have hcast : (0 : ℝ) + d * 0.5 = ((0 + 1 : ℕ) : ℝ) * (d * 0.5) := by
          push_cast
          ring
        refine ⟨?_, ?_, ?_⟩
        · rw [hmode2, if_neg (by rw [hminval]; exact not_le.mpr hlt2), hminval, hcast]
        · rw [hgs2, hminval, hcast]
        · rw [← hcast]
          exact hlt2

/- ════════════════ C2: ragdoll mode state machine ════════════════ -/

/-- C2: go_ragdoll enters Ragdoll and stops walking; start_recovery
enters Recovery at progress 0; update advances Recovery linearly by
delta * 0.5 and flips to Active exactly when the progress reaches 1;
Active and Ragdoll are fixed by update (no other transitions); the tick
update following go_ragdoll drives global_strength to 0; and iterating
update after start_recovery for total ramp at least 1 drives
global_strength to 1 and the mode to Active. -/
theorem ragdoll_mode_state_machine :
    (∀ r : ActiveRagdoll, r.go_ragdoll.mode = RagdollMode.Ragdoll ∧
      r.go_ragdoll.is_walking = false) ∧
    (∀ r : ActiveRagdoll, r.start_recovery.mode = RagdollMode.Recovery 0) ∧
    (∀ (r : ActiveRagdoll) (w : PhysicsWorld) (d p : ℝ), r.mode = RagdollMode.Recovery p →
      ((1 ≤ p + d * 0.5 → (r.update w d).1.mode = RagdollMode.Active) ∧
       (p + d * 0.5 < 1 → (r.update w d).1.mode = RagdollMode.Recovery (p + d * 0.5)))) ∧
    (∀ (r : ActiveRagdoll) (w : PhysicsWorld) (d : ℝ), r.mode = RagdollMode.Active →
      (r.update w d).1.mode = RagdollMode.Active) ∧
    (∀ (r : ActiveRagdoll) (w : PhysicsWorld) (d : ℝ), r.mode = RagdollMode.Ragdoll →
      (r.update w d).1.mode = RagdollMode.Ragdoll) ∧
    (∀ (r : ActiveRagdoll) (w : PhysicsWorld) (d : ℝ),
      (r.go_ragdoll.update w d).1.muscles.global_strength = 0) ∧
    (∀ (r : ActiveRagdoll) (w : PhysicsWorld) (d : ℝ) (n : ℕ),
      1 ≤ (n : ℝ) * (d * 0.5) →
      (r.start_recovery.updateIter w d n).1.muscles.global_strength = 1 ∧
      (r.start_recovery.updateIter w d n).1.mode = RagdollMode.Active) := by
  refine ⟨fun r => ⟨rfl, rfl⟩, fun r => rfl, ?_, ?_, ?_, ?_, ?_⟩
  · intro r w d p h
    constructor
    · intro h1
      rw [update_mode_of_recovery r w d p h, if_pos (le_min h1 le_rfl)]
    · intro h2
      rw [update_mode_of_recovery r w d p h,
        if_neg (by rw [min_eq_left h2.le]; exact not_le.mpr h2), min_eq_left h2.le]
  · exact fun r w d h => update_mode_of_active r w d h
  · exact fun r w d h => update_mode_of_ragdoll r w d h
  · exact fun r w d => update_gs_of_ragdoll r.go_ragdoll w d rfl
  · intro r w d n hn
    have hn1 : 1 ≤ n := by
      by_contra hc
      have : n = 0 := by omega
      subst this
      norm_num at hn
    rcases recovery_ramp r.start_recovery w d n hn1 rfl with ⟨_, _, hlt⟩ | ⟨hmode, hgs⟩
    · linarith
    · exact ⟨hgs, hmode⟩

/-- Witness for C2 at concrete states: a Recovery state at progress 0.5
with delta 1.1 crosses the threshold to Active, one below the threshold
advances to Recovery 0.55, Active and Ragdoll states are fixed, the tick
after go_ragdoll has zero strength, and four updates at delta 0.6 from
start_recovery reach Active at full strength. -/
theorem ragdoll_mode_state_machine_witness :
    (sampleRagdoll.go_ragdoll.mode = RagdollMode.Ragdoll ∧
      sampleRagdoll.go_ragdoll.is_walking = false) ∧
    (sampleRagdoll.start_recovery.mode = RagdollMode.Recovery 0) ∧
    (sampleRagdollRecovery.mode = RagdollMode.Recovery 0.5 ∧
      (1 : ℝ) ≤ 0.5 + 1.1 * 0.5 ∧
      (sampleRagdollRecovery.update PhysicsWorld.new 1.1).1.mode = RagdollMode.Active) ∧
    ((0.5 : ℝ) + 0.1 * 0.5 < 1 ∧
      (sampleRagdollRecovery.update PhysicsWorld.new 0.1).1.mode =
        RagdollMode.Recovery (0.5 + 0.1 * 0.5)) ∧
    (sampleRagdollActive.mode = RagdollMode.Active ∧
      (sampleRagdollActive.update PhysicsWorld.new 2).1.mode = RagdollMode.Active) ∧
    (sampleRagdoll.mode = RagdollMode.Ragdoll ∧
      (sampleRagdoll.update PhysicsWorld.new 2).1.mode = RagdollMode.Ragdoll) ∧
    ((sampleRagdoll.go_ragdoll.update PhysicsWorld.new 2).1.muscles.global_strength = 0) ∧
    ((1 : ℝ) ≤ ((4 : ℕ) : ℝ) * (0.6 * 0.5) ∧
      (sampleRagdoll.start_recovery.updateIter PhysicsWorld.new 0.6 4).1.muscles.global_strength
        = 1 ∧
      (sampleRagdoll.start_recovery.updateIter PhysicsWorld.new 0.6 4).1.mode =
        RagdollMode.Active) :=
  ⟨ragdoll_mode_state_machine.1 sampleRagdoll,
   ragdoll_mode_state_machine.2.1 sampleRagdoll,
   ⟨rfl, by norm_num,
    (ragdoll_mode_state_machine.2.2.1 sampleRagdollRecovery PhysicsWorld.new 1.1 0.5 rfl).1
      (by norm_num)⟩,
   ⟨by norm_num,
    (ragdoll_mode_state_machine.2.2.1 sampleRagdollRecovery PhysicsWorld.new 0.1 0.5 rfl).2
      (by norm_num)⟩,
   ⟨rfl, ragdoll_mode_state_machine.2.2.2.1 sampleRagdollActive PhysicsWorld.new 2 rfl⟩,
   ⟨rfl, ragdoll_mode_state_machine.2.2.2.2.1 sampleRagdoll PhysicsWorld.new 2 rfl⟩,
   ragdoll_mode_state_machine.2.2.2.2.2.1 sampleRagdoll PhysicsWorld.new 2,
   ⟨by norm_num,
    (ragdoll_mode_state_machine.2.2.2.2.2.2 sampleRagdoll PhysicsWorld.new 0.6 4
      (by norm_num)).1,
    (ragdoll_mode_state_machine.2.2.2.2.2.2 sampleRagdoll PhysicsWorld.new 0.6 4
      (by norm_num)).2⟩⟩

/- ════════════════ C10: fresh ragdoll state and the first update ════════════════ -/

/-- C10: a freshly constructed ActiveRagdoll starts in Ragdoll mode with
walking off while its muscle system still has global_strength 1; the
first update call resolves the Ragdoll mode and drives global_strength
to 0. -/
theorem new_ragdoll_initial_state (w : PhysicsWorld) (pos : Vec3)
    (w2 : PhysicsWorld) (d : ℝ) :
    (ActiveRagdoll.new w pos).1.mode = RagdollMode.Ragdoll ∧
    (ActiveRagdoll.new w pos).1.is_walking = false ∧
    (ActiveRagdoll.new w pos).1.muscles.global_strength = 1 ∧
    ((ActiveRagdoll.new w pos).1.update w2 d).1.muscles.global_strength = 0 := by
  refine ⟨rfl, rfl, rfl, ?_⟩
  exact update_gs_of_ragdoll (ActiveRagdoll.new w pos).1 w2 d rfl

/- ════════════════ C1: order of strength scaling and magnitude clamp ════════════════ -/

theorem id_mul_id_inv : Quat.identity * Quat.identity.inverse = Quat.identity := by
  ext <;> norm_num [Quat.identity, Quat.inverse, Quat.conjugate]

theorem to_axis_angle_identity : Quat.identity.to_axis_angle = (⟨1, 0, 0⟩, 0) := by
  have h : (Vec3.mk Quat.identity.x Quat.identity.y Quat.identity.z).length = 0 := by
    show Real.sqrt ((0 : ℝ) * 0 + 0 * 0 + 0 * 0) = 0
    norm_num
  simp only [Quat.to_axis_angle]
  rw [h, if_neg (by norm_num : ¬ ((0 : ℝ) ≥ 1.0e-8))]

theorem normalize_angle_zero : normalize_angle 0 = 0 := by
  unfold normalize_angle
  rw [if_neg (by linarith [Real.pi_pos] : ¬ ((0 : ℝ) > Real.pi)),
    if_neg (by linarith [Real.pi_pos] : ¬ ((0 : ℝ) < -Real.pi))]

theorem length_2400 : (Vec3.mk 2400 0 0).length = 2400 := by
  show Real.sqrt ((2400 : ℝ) * 2400 + 0 * 0 + 0 * 0) = 2400
  rw [show (2400 : ℝ) * 2400 + 0 * 0 + 0 * 0 = 2400 ^ 2 by norm_num,
    Real.sqrt_sq (by norm_num : (0 : ℝ) ≤ 2400)]

theorem length_8000 : (Vec3.mk 8000 0 0).length = 8000 := by
  show Real.sqrt ((8000 : ℝ) * 8000 + 0 * 0 + 0 * 0) = 8000
  rw [show (8000 : ℝ) * 8000 + 0 * 0 + 0 * 0 = 8000 ^ 2 by norm_num,
    Real.sqrt_sq (by norm_num : (0 : ℝ) ≤ 8000)]

/-- Counterexample to C1 as stated: for the Spine muscle weakened to
strength 0.3 (the state produced by one apply_impact), identity current
and target rotations and angular velocity (-100, 0, 0), the code
computes (500, 0, 0) — it clamps after scaling by strength — while the
formula claimed by the spec, strength times the clamped PD sum, gives
(150, 0, 0). -/
theorem calculate_torque_clamp_order_counterexample :
    cexMuscle.calculate_torque Quat.identity cexOmega = ⟨500, 0, 0⟩ ∧
    calculate_torque_specC1 cexMuscle Quat.identity cexOmega = ⟨150, 0, 0⟩ ∧
    cexMuscle.calculate_torque Quat.identity cexOmega ≠
      calculate_torque_specC1 cexMuscle Quat.identity cexOmega := by
  have herr : cexMuscle.target_rotation * Quat.identity.inverse = Quat.identity :=
    id_mul_id_inv
  have hv2 : (0 * cexMuscle.kp) • (Vec3.mk 1 0 0) + cexMuscle.kd • -cexOmega =
      Vec3.mk 8000 0 0 := by
    ext <;> norm_num [cexMuscle, cexOmega]
  have hcode : cexMuscle.calculate_torque Quat.identity cexOmega = ⟨500, 0, 0⟩ := by
    simp only [Muscle.calculate_torque, herr, to_axis_angle_identity]
    rw [if_neg (by norm_num [cexMuscle] : ¬ (cexMuscle.strength < 0.01))]
    rw [normalize_angle_zero]
    have hv : cexMuscle.strength •
        ((0 * cexMuscle.kp) • (Vec3.mk 1 0 0) + cexMuscle.kd • -cexOmega) =
        Vec3.mk 2400 0 0 := by
      ext <;> norm_num [cexMuscle, cexOmega]
    rw [hv, length_2400, if_pos (by norm_num [cexMuscle] : (2400 : ℝ) > cexMuscle.max_torque)]
    rw [Vec3.normalize, length_2400]
    ext <;> norm_num [cexMuscle]
  have hspec : calculate_torque_specC1 cexMuscle Quat.identity cexOmega = ⟨150, 0, 0⟩ := by
    simp only [calculate_torque_specC1, herr, to_axis_angle_identity]
    rw [if_neg (by norm_num [cexMuscle] : ¬ (cexMuscle.strength < 0.01))]
    rw [normalize_angle_zero, hv2]
    unfold clamp_magnitude
    rw [length_8000, if_pos (by norm_num [cexMuscle] : (8000 : ℝ) > cexMuscle.max_torque)]
    rw [Vec3.normalize, length_8000]
    ext <;> norm_num [cexMuscle]
  refine ⟨hcode, hspec, ?_⟩
  rw [hcode, hspec]
  intro h
  have hx := congrArg Vec3.x h
  norm_num at hx

/-- C1 amended: calculate_torque returns the zero vector when strength is
below 0.01 and otherwise clamp_magnitude(strength * (Kp * axis * angle +
Kd * (-angular_velocity)), max_torque) — the strength factor is applied
to the PD sum before the magnitude clamp, with the axis-angle
decomposition normalized into (-pi, pi] exactly as the claim describes. -/
theorem calculate_torque_amended_clamp_order (m : Muscle) (current_rotation : Quat)
    (angular_velocity : Vec3) :
    m.calculate_torque current_rotation angular_velocity =
      calculate_torque_amendedC1 m current_rotation angular_velocity := rfl

/- ════════════════ C7: pose lerp endpoints ════════════════ -/

theorem Quat.length_neg (q : Quat) : q.neg.length = q.length := by
  unfold Quat.length Quat.dot Quat.neg
  congr 1
  ring

theorem Quat.dot_neg_right (a b : Quat) : a.dot b.neg = -(a.dot b) := by
  unfold Quat.dot Quat.neg
  ring

theorem Quat.normalize_of_unit (q : Quat) (h : q.length = 1) : q.normalize = q := by
  unfold Quat.normalize
  rw [h, inv_one]
  ext <;> simp

theorem Quat.lerp_zero (q e : Quat) (hq : q.length = 1) : q.lerp e 0 = q := by
  simp only [Quat.lerp]
  generalize (if q.dot e ≥ 0 then (1 : ℝ) else -1) = bias
  have h1 : q + ((e.smul bias) - q).smul 0 = q := by
    ext <;> simp
  rw [h1]
  exact Quat.normalize_of_unit q hq

theorem Quat.lerp_one (q e : Quat) (he : e.length = 1) (hd : 0 ≤ q.dot e) :
    q.lerp e 1 = e := by
  simp only [Quat.lerp]
  rw [if_pos hd]
  have h1 : q + ((e.smul 1) - q).smul 1 = e := by
    ext <;> simp
  rw [h1]
  exact Quat.normalize_of_unit e he

theorem sin_arccos_pos (dd : ℝ) (h0 : 0 ≤ dd) (h1 : dd ≤ 0.9995) :
    0 < Real.sin (Real.arccos dd) := by
  apply Real.sin_pos_of_pos_of_lt_pi
  · exact Real.arccos_pos.mpr (by linarith)
  · have harc : Real.arccos dd ≤ Real.pi / 2 := by
      rw [Real.arccos_eq_pi_div_two_sub_arcsin]
      have := Real.arcsin_nonneg.mpr h0
      linarith
    linarith [Real.pi_pos]

theorem slerp_trig_zero (q e1 : Quat) (dd : ℝ) (h0 : 0 ≤ dd) (h1 : dd ≤ 0.9995) :
    ((q.smul (Real.sin (Real.arccos dd * (1 - 0)))) +
      e1.smul (Real.sin (Real.arccos dd * 0))).smul (Real.sin (Real.arccos dd))⁻¹ = q := by
  have hsin := sin_arccos_pos dd h0 h1
  have hne : Real.sin (Real.arccos dd) ≠ 0 := hsin.ne'
  rw [show Real.arccos dd * (1 - 0) = Real.arccos dd by ring, mul_zero, Real.sin_zero]
  ext <;> simp <;> field_simp

theorem slerp_trig_one (q e1 : Quat) (dd : ℝ) (h0 : 0 ≤ dd) (h1 : dd ≤ 0.9995) :
    ((q.smul (Real.sin (Real.arccos dd * (1 - 1)))) +
      e1.smul (Real.sin (Real.arccos dd * 1))).smul (Real.sin (Real.arccos dd))⁻¹ = e1 := by
  have hsin := sin_arccos_pos dd h0 h1
  have hne : Real.sin (Real.arccos dd) ≠ 0 := hsin.ne'
  rw [show Real.arccos dd * (1 - 1) = 0 by ring, Real.sin_zero, mul_one]
  ext <;> simp <;> field_simp

theorem Quat.slerp_zero (q e : Quat) (hq : q.length = 1) : q.slerp e 0 = q := by
  simp only [Quat.slerp]
  by_cases hneg : q.dot e < 0
  · rw [if_pos hneg]
    dsimp only
    split_ifs with hbig
    · exact Quat.lerp_zero q e.neg hq
    · exact slerp_trig_zero q e.neg (-(q.dot e)) (by linarith) (not_lt.mp hbig)
  · rw [if_neg hneg]
    dsimp only
    split_ifs with hbig
    · exact Quat.lerp_zero q e hq
    · exact slerp_trig_zero q e (q.dot e) (not_lt.mp hneg) (not_lt.mp hbig)

theorem Quat.slerp_one (q e : Quat) (he : e.length = 1) :
    q.slerp e 1 = e ∨ q.slerp e 1 = e.neg := by
  simp only [Quat.slerp]
  by_cases hneg : q.dot e < 0
  · right
    rw [if_pos hneg]
    dsimp only
    split_ifs with hbig
    · refine Quat.lerp_one q e.neg ?_ ?_
      · rw [Quat.length_neg]; exact he
      · rw [Quat.dot_neg_right]; linarith
    · exact slerp_trig_one q e.neg (-(q.dot e)) (by linarith) (not_lt.mp hbig)
  · left
    rw [if_neg hneg]
    dsimp only
    split_ifs with hbig
    · exact Quat.lerp_one q e he (not_lt.mp hneg)
    · exact slerp_trig_one q e (q.dot e) (not_lt.mp hneg) (not_lt.mp hbig)

/-- C7: per-bone, TargetPose.lerp at t = 0 yields the first pose rotation
and at t = 1 the second pose rotation, up to quaternion sign, with
identity substituted for bones absent from either pose (stated for unit
rotations, which is what every pose of the program stores). -/
theorem target_pose_lerp_endpoints (a b : TargetPose) (bone : BoneId)
    (ha : ((a.bone_rotations bone).getD Quat.identity).length = 1)
    (hb : ((b.bone_rotations bone).getD Quat.identity).length = 1) :
    ((TargetPose.lerp a b 0).bone_rotations bone =
        some ((a.bone_rotations bone).getD Quat.identity) ∨
     (TargetPose.lerp a b 0).bone_rotations bone =
        some (((a.bone_rotations bone).getD Quat.identity).neg)) ∧
    ((TargetPose.lerp a b 1).bone_rotations bone =
        some ((b.bone_rotations bone).getD Quat.identity) ∨
     (TargetPose.lerp a b 1).bone_rotations bone =
        some (((b.bone_rotations bone).getD Quat.identity).neg)) := by
  constructor
  · left
    simp only [TargetPose.lerp]
    exact congrArg some (Quat.slerp_zero _ _ ha)
  · rcases Quat.slerp_one ((a.bone_rotations bone).getD Quat.identity)
      ((b.bone_rotations bone).getD Quat.identity) hb with h | h
    · left
      simp only [TargetPose.lerp]
      exact congrArg some h
    · right
      simp only [TargetPose.lerp]
      exact congrArg some h

/-- Witness for C7: the standing and T poses store the unit identity
rotation at the Pelvis and the endpoint property holds there. -/
theorem target_pose_lerp_endpoints_witness :
    ((TargetPose.standing.bone_rotations BoneId.Pelvis).getD Quat.identity).length = 1 ∧
    ((TargetPose.t_pose.bone_rotations BoneId.Pelvis).getD Quat.identity).length = 1 ∧
    (((TargetPose.lerp TargetPose.standing TargetPose.t_pose 0).bone_rotations BoneId.Pelvis =
        some ((TargetPose.standing.bone_rotations BoneId.Pelvis).getD Quat.identity) ∨
      (TargetPose.lerp TargetPose.standing TargetPose.t_pose 0).bone_rotations BoneId.Pelvis =
        some (((TargetPose.standing.bone_rotations BoneId.Pelvis).getD Quat.identity).neg)) ∧
     ((TargetPose.lerp TargetPose.standing TargetPose.t_pose 1).bone_rotations BoneId.Pelvis =
        some ((TargetPose.t_pose.bone_rotations BoneId.Pelvis).getD Quat.identity) ∨
      (TargetPose.lerp TargetPose.standing TargetPose.t_pose 1).bone_rotations BoneId.Pelvis =
        some (((TargetPose.t_pose.bone_rotations BoneId.Pelvis).getD Quat.identity).neg))) := by
  have h1 : ((TargetPose.standing.bone_rotations BoneId.Pelvis).getD Quat.identity).length = 1 := by
    show Real.sqrt ((0 : ℝ) * 0 + 0 * 0 + 0 * 0 + 1 * 1) = 1
    norm_num
  have h2 : ((TargetPose.t_pose.bone_rotations BoneId.Pelvis).getD Quat.identity).length = 1 := by
    show Real.sqrt ((0 : ℝ) * 0 + 0 * 0 + 0 * 0 + 1 * 1) = 1
    norm_num
  exact ⟨h1, h2, target_pose_lerp_endpoints TargetPose.standing TargetPose.t_pose
    BoneId.Pelvis h1 h2⟩
